import Mathlib

/-!
Verification development for the AutoRunner endless-runner gameplay code
(src/AutoRunner.cpp, src/AutoRunner.h, src/Touch.cpp).

The procedural level generator (`AutoRunner::CreateLevel`), the path assembler
(`AutoRunner::UpdatePath`), the per-frame path-maintenance slice of
`AutoRunner::HandleUpdate`, and the touch direction predicates of `Touch`
are embedded shallowly.  Engine services (scene instantiation, the physics
raycast, the seeded random generator, character internals) are supplied as
explicit oracle functions in an environment record, matching the external
interface section of the spec.  Geometry uses exact rationals in place of
engine floats; rotations are kept abstract as an action on vectors.
-/

/-- A 3D vector (engine `Vector3`), with exact rational coordinates. -/
structure Vec3 where
  x : ℚ
  y : ℚ
  z : ℚ
deriving DecidableEq

/-- Urho3D `Vector3::LEFT` is `(-1, 0, 0)`. -/
def Vector3LEFT : Vec3 := ⟨-1, 0, 0⟩

/-- A world rotation (engine `Quaternion`), kept abstract as its action on
vectors; `CreateLevel` only ever uses a rotation by applying it to a vector
(`outNode->GetWorldRotation() * Vector3::LEFT`). -/
structure Rot where
  apply : Vec3 → Vec3

/-- The resolved world transform of a named child node of a block
(a socket such as `In`, `Out`, `OutL`, `OutR`). -/
structure Socket where
  pos : Vec3
  rot : Rot

/-- The floor collision layer bit `FLOOR_COLLISION_MASK`.  Its numeric value is
defined in a header that is not part of src/; only its identity as "the floor
layer mask" matters for the probe, so it is pinned to an arbitrary value. -/
def FLOOR_COLLISION_MASK : Nat := 1

/-- The data of one physics ray query as issued by `CreateLevel`
(`RaycastSingle(result, ray, 20.0f, FLOOR_COLLISION_MASK)`):
origin, direction, maximum distance and the collision layer mask. -/
structure ProbeRay where
  origin : Vec3
  dir : Vec3
  maxDist : ℚ
  mask : Nat

/-- The single clearance probe ray `CreateLevel` builds from an exit socket
(src/AutoRunner.cpp lines 625-631): origin at the socket's world position,
direction the socket's world rotation applied to `Vector3::LEFT`, maximum
distance `20.0f`, filtered to the floor collision layer. -/
def mkProbeRay (s : Socket) : ProbeRay :=
  ⟨s.pos, s.rot.apply Vector3LEFT, 20, FLOOR_COLLISION_MASK⟩

/-- Urho3D `Random(int range)` returns a uniform integer in `[0, range)`;
the pseudo-random source is modelled as an oracle value `v` drawn from a
stream, reduced into range (`Random(0)` returns 0). -/
def random (v : Nat) (range : Nat) : Nat :=
  if range = 0 then 0 else v % range

/-- An item node inside a group of a block's `Groups` node: whether the prefab
marks it animated (`GameVariants::P_ISANIMATED`), whether it currently has an
`AnimationController` component, and whether the node is enabled. -/
structure ItemNode where
  isAnimated : Bool
  hasController : Bool
  enabled : Bool
deriving DecidableEq

/-- One child group of a block's `Groups` node. -/
structure GroupNode where
  enabled : Bool
  items : List ItemNode
deriving DecidableEq

/-- A placed block (instantiated segment prefab) as `CreateLevel` and
`UpdatePath` observe it: its declared exit count (`GameVariants::P_OUT`), the
resolved world transforms of its named socket nodes, the world positions of
the point children of each named rail node under `Paths` (keyed by e.g.
`"CenterIn"`, `"LeftOutL"`), and the children of its `Groups` node. -/
structure BlockData where
  outs : Nat
  sockets : String → Socket
  paths : String → List Vec3
  groups : List GroupNode

/-- The character's fork turn state (`TurnState` read via `GetTurnState`). -/
inductive TurnState where
  | noSucceeded
  | leftSucceeded
  | rightSucceeded
deriving DecidableEq

/-- Modelled from the spec: the character path consumer (class `Character`,
whose source is not under src/).  Per the external interface section,
`AddToPath(side, points)` appends points to the rail sequence of a side,
`GetNumPoints` reports the remaining path points, `GetTurnState` reports the
fork decision, `IsDead` reports death.  Only these observations are needed. -/
structure Character where
  turnState : TurnState
  leftPath : List Vec3
  rightPath : List Vec3
  centerPath : List Vec3
  numPoints : Nat
  dead : Bool

/-- Modelled from the spec: `Character::AddToPath` for the three sides at once,
appending the new points to each rail sequence. -/
def addToPath (c : Character) (lp rp cp : List Vec3) : Character :=
  { c with
    leftPath := c.leftPath ++ lp
    rightPath := c.rightPath ++ rp
    centerPath := c.centerPath ++ cp }

/-- The engine-supplied environment: the block prefab catalog `blockNames_`,
scene instantiation (keyed by the random-stream index of the attempt and the
chosen catalog index, returning the anchored block's observable data), the
physics world raycast oracle, the seeded pseudo-random stream, and the
character-internal `RemovePassedBlocks` (not under src/, observationally a
character transform that cannot touch the placement queue). -/
structure Env where
  blockNames : List String
  instantiate : Nat → Nat → BlockData
  raycastHit : ProbeRay → Bool
  rng : Nat → Nat
  removePassedBlocks : Character → Character

/-- The gameplay controller state threaded through `CreateLevel`,
`UpdatePath` and `HandleUpdate`: the placement queue `blocks_`, the placed
counter `numBlocks_`, the position in the random stream, the anchor transform
`lastOutWorldPosition_` / `lastOutWorldRotation_`, and the character. -/
structure RunnerState where
  blocks : List BlockData
  numBlocks : Nat
  rngIdx : Nat
  lastOutPos : Vec3
  lastOutRot : Rot
  character : Character

/-- Outcome of the clearance-probe `while (twoWay > 0)` loop of one placement
attempt, together with the trace of rays cast and the socket names they were
built from. -/
structure ProbeOutcome where
  probed : List ProbeRay
  probedNames : List String
  accepted : Bool
  maxRec : Nat
  assertFailed : Bool
  posixAfter : String

/-- The clearance-probe loop of `CreateLevel` (src/AutoRunner.cpp lines
623-653).  `outNode` is fetched once before the loop (line 621) and never
re-fetched, so every iteration builds its ray from the same socket; the C++
reassigns `posix` to `"L"` on the no-hit path (line 650) but never reads it
again, which is transcribed faithfully as the threaded `posix` value.  A hit
breaks out of the loop: with a zero retry counter it trips `assert(false)`
(modelled as `assertFailed`), otherwise the block is removed and the counter
decremented; a miss resets the counter to 30. -/
def probeLoop (env : Env) (outs : Nat) (outNode : Socket) (outName : String) :
    Nat → Nat → String → ProbeOutcome
  | 0, maxRec, posix => ⟨[], [], true, maxRec, false, posix⟩
  | twoWay + 1, maxRec, posix =>
    let ray := mkProbeRay outNode
    if env.raycastHit ray = true then
      if maxRec = 0 then
        ⟨[ray], [outName], false, maxRec, true, posix⟩
      else
        ⟨[ray], [outName], false, maxRec - 1, false, posix⟩
    else
      let posix2 := if 2 ≤ outs then "L" else posix
      let r := probeLoop env outs outNode outName twoWay 30 posix2
      ⟨ray :: r.probed, outName :: r.probedNames, r.accepted, r.maxRec,
        r.assertFailed, r.posixAfter⟩

/-- Everything observable about one iteration of `CreateLevel`'s
`while (cnt > 0)` loop up to the accept/reject decision. -/
structure AttemptResult where
  chosenIdx : Nat
  block : BlockData
  outs : Nat
  outName : String
  outSocket : Socket
  probed : List ProbeRay
  probedNames : List String
  accepted : Bool
  assertFailed : Bool
  removed : Bool
  maxRecursive : Nat

/-- One placement attempt of `CreateLevel` (src/AutoRunner.cpp lines 580-657):
draw a catalog index with `Random(maxBlockNumber)`, force index 0 while
`numBlocks_ == 0`, instantiate the prefab anchored at the current anchor
transform, read its exit count, pick the probe socket `"Out" + posix` with
`posix = "R"` for a fork (two loop passes) and `posix = ""` otherwise (one
pass), and run the clearance-probe loop. -/
def attempt (env : Env) (numBlocks maxRec rngIdx : Nat) : AttemptResult :=
  let maxBlockNumber := env.blockNames.length
  let rnd0 := random (env.rng rngIdx) maxBlockNumber
  let rnd := if numBlocks = 0 then 0 else rnd0
  let block := env.instantiate rngIdx rnd
  let outs := block.outs
  let posix := if 2 ≤ outs then "R" else ""
  let twoWay := if 2 ≤ outs then 2 else 1
  let outName := "Out" ++ posix
  let outNode := block.sockets outName
  let po := probeLoop env outs outNode outName twoWay maxRec posix
  ⟨rnd, block, outs, outName, outNode, po.probed, po.probedNames, po.accepted,
    po.assertFailed, !po.accepted && !po.assertFailed, po.maxRec⟩

/-- Recursively disable a node, as `SetEnabled(false, true)` does. -/
def disableItem (it : ItemNode) : ItemNode :=
  { it with enabled := false }

/-- Recursively disable a group node and all of its children. -/
def disableRec (g : GroupNode) : GroupNode :=
  { g with enabled := false, items := g.items.map disableItem }

/-- The chosen-group body of the group loop: every item flagged animated gets
an `AnimationController` component (the group itself is left as it was). -/
def animateItems (g : GroupNode) : GroupNode :=
  { g with items := g.items.map fun it =>
      if it.isAnimated = true then { it with hasController := true } else it }

/-- The group-selection loop of `CreateLevel` (src/AutoRunner.cpp lines
659-683): iterate the children of the `Groups` node with index `i`; the child
at the drawn index keeps running (its animated items get controllers), every
other child is recursively disabled. -/
def processGroups (rnd : Nat) : Nat → List GroupNode → List GroupNode
  | _, [] => []
  | i, g :: gs =>
    (if i = rnd then animateItems g else disableRec g) :: processGroups rnd (i + 1) gs

/-- One entry of the observational trace of `CreateLevel`'s placement loop:
the retry counter at the start of the iteration, the exit count of the
instantiated block, and whether the iteration accepted it or tripped the
assertion. -/
structure AttemptRecord where
  counterBefore : Nat
  outs : Nat
  accepted : Bool
  failed : Bool
deriving DecidableEq

/-- Result of `CreateLevel`'s placement loop, plus the attempt trace. -/
structure LevelResult where
  blocks : List BlockData
  numBlocks : Nat
  rngIdx : Nat
  lastOutPos : Vec3
  lastOutRot : Rot
  trace : List AttemptRecord
  assertFailed : Bool
  outOfFuel : Bool

/-- The `while (cnt > 0)` placement loop of `CreateLevel` (src/AutoRunner.cpp
lines 580-703), with explicit fuel (the loop terminates because the retry
counter is bounded, but the recursion is written on fuel).  A rejected attempt
retries the same slot with the decremented retry counter; an accepted attempt
runs the group selection (consuming one more random draw), decrements `cnt`,
increments `numBlocks_`, pushes the block on the queue tail, forces `cnt` to 0
when the block has two or more exits, and advances the anchor transform to the
captured `outNode` world transform. -/
def levelLoop (env : Env) :
    Nat → Nat → Nat → Nat → Nat → List BlockData → Vec3 → Rot → LevelResult
  | 0, cnt, _, numBlocks, rngIdx, blocks, pos, rot =>
    ⟨blocks, numBlocks, rngIdx, pos, rot, [], false, decide (0 < cnt)⟩
  | fuel + 1, cnt, maxRec, numBlocks, rngIdx, blocks, pos, rot =>
    if cnt = 0 then
      ⟨blocks, numBlocks, rngIdx, pos, rot, [], false, false⟩
    else
      let a := attempt env numBlocks maxRec rngIdx
      let entry : AttemptRecord := ⟨maxRec, a.outs, a.accepted, a.assertFailed⟩
      if a.assertFailed = true then
        ⟨blocks, numBlocks, rngIdx + 1, pos, rot, [entry], true, false⟩
      else if a.accepted = false then
        let r := levelLoop env fuel cnt a.maxRecursive numBlocks (rngIdx + 1) blocks pos rot
        { r with trace := entry :: r.trace }
      else
        let grnd := random (env.rng (rngIdx + 1)) a.block.groups.length
        let placed := { a.block with groups := processGroups grnd 0 a.block.groups }
        let cnt2 := if 2 ≤ a.outs then 0 else cnt - 1
        let r := levelLoop env fuel cnt2 a.maxRecursive (numBlocks + 1) (rngIdx + 2)
          (blocks ++ [placed]) a.outSocket.pos a.outSocket.rot
        { r with trace := entry :: r.trace }

/-- Result of the path-assembler walk over the placement queue: the remaining
queue, whether the fork-pending early `return` fired, the three collected
point lists, and the (possibly updated) anchor transform. -/
structure UpdateGoResult where
  blocks : List BlockData
  earlyReturn : Bool
  leftPts : List Vec3
  rightPts : List Vec3
  centerPts : List Vec3
  pos : Vec3
  rot : Rot

/-- The `while (blocks_.Size() > 0)` loop of `UpdatePath` (src/AutoRunner.cpp
lines 714-795).  Per block: the socket suffix is `"In"` when `startIn` is set
or the block has no exits, else `"Out"`; at a fork (`outs >= 2`) reached with
`startIn` still false, a pending turn state returns early (the current local
point lists are abandoned, blocks already popped stay popped), otherwise the
suffix gains `"L"`/`"R"` from the turn state and the anchor transform is moved
to that socket.  The three rails for the suffix are appended to the local
lists; then a block with exits either flips `startIn` (first such block) or
breaks the loop without popping; a processed block is popped otherwise. -/
def updatePathGo (turn : TurnState) :
    List BlockData → Bool → List Vec3 → List Vec3 → List Vec3 → Vec3 → Rot → UpdateGoResult
  | [], _, lp, rp, cp, pos, rot => ⟨[], false, lp, rp, cp, pos, rot⟩
  | b :: rest, startIn, lp, rp, cp, pos, rot =>
    let outs := b.outs
    let posix := if startIn = true ∨ outs = 0 then "In" else "Out"
    if 2 ≤ outs ∧ startIn = false ∧ turn = TurnState.noSucceeded then
      ⟨b :: rest, true, lp, rp, cp, pos, rot⟩
    else if 2 ≤ outs ∧ startIn = false then
      let posix := posix ++ (if turn = TurnState.leftSucceeded then "L" else "R")
      let outNode := b.sockets posix
      let cp := cp ++ b.paths ("Center" ++ posix)
      let lp := lp ++ b.paths ("Left" ++ posix)
      let rp := rp ++ b.paths ("Right" ++ posix)
      if 0 < outs ∧ startIn = true then
        ⟨b :: rest, false, lp, rp, cp, outNode.pos, outNode.rot⟩
      else
        updatePathGo turn rest (if 0 < outs then true else startIn) lp rp cp
          outNode.pos outNode.rot
    else
      let cp := cp ++ b.paths ("Center" ++ posix)
      let lp := lp ++ b.paths ("Left" ++ posix)
      let rp := rp ++ b.paths ("Right" ++ posix)
      if 0 < outs ∧ startIn = true then
        ⟨b :: rest, false, lp, rp, cp, pos, rot⟩
      else
        updatePathGo turn rest (if 0 < outs then true else startIn) lp rp cp pos rot

/-- `AutoRunner::UpdatePath(bool startIn)` (src/AutoRunner.cpp lines 708-800):
walk the queue collecting rail points; on the fork-pending early `return` the
`AddToPath` calls at the end are skipped (the collected locals are discarded),
otherwise the three collected lists are appended to the character's rails. -/
def updatePath (startIn : Bool) (st : RunnerState) : RunnerState :=
  let r := updatePathGo st.character.turnState st.blocks startIn [] [] []
    st.lastOutPos st.lastOutRot
  if r.earlyReturn = true then
    { st with blocks := r.blocks, lastOutPos := r.pos, lastOutRot := r.rot }
  else
    { st with
      blocks := r.blocks
      lastOutPos := r.pos
      lastOutRot := r.rot
      character := addToPath st.character r.leftPts r.rightPts r.centerPts }

/-- Result of `CreateLevel`: the updated controller state, the attempt trace,
and the two abnormal-termination flags. -/
structure CreateLevelResult where
  state : RunnerState
  trace : List AttemptRecord
  assertFailed : Bool
  outOfFuel : Bool

/-- `AutoRunner::CreateLevel` (src/AutoRunner.cpp lines 573-706): run the
placement loop with `cnt = 3` and retry counter `maxRecursive = 30`, then
rebuild the path with `UpdatePath()` (default argument `startIn = true`).
On the assertion path the program halts, so the trailing `UpdatePath` is not
run in that case. -/
def createLevel (env : Env) (fuel : Nat) (st : RunnerState) : CreateLevelResult :=
  let r := levelLoop env fuel 3 30 st.numBlocks st.rngIdx st.blocks
    st.lastOutPos st.lastOutRot
  let st1 : RunnerState :=
    { blocks := r.blocks, numBlocks := r.numBlocks, rngIdx := r.rngIdx,
      lastOutPos := r.lastOutPos, lastOutRot := r.lastOutRot,
      character := st.character }
  if r.assertFailed = true ∨ r.outOfFuel = true then
    ⟨st1, r.trace, r.assertFailed, r.outOfFuel⟩
  else
    ⟨updatePath true st1, r.trace, false, false⟩

/-- Result of the path-maintenance slice of `HandleUpdate`, with observational
flags recording whether `UpdatePath` and `CreateLevel` were invoked. -/
structure HandleUpdateResult where
  state : RunnerState
  updatePathCalled : Bool
  createLevelCalled : Bool

/-- The path-maintenance slice of `AutoRunner::HandleUpdate`
(src/AutoRunner.cpp lines 344-354): while the character is alive, when it has
at most 3 path points remaining, call `UpdatePath(false)`, let the character
drop its passed blocks, and call `CreateLevel()` exactly when the placement
queue has emptied. -/
def handleUpdateStep (env : Env) (fuel : Nat) (st : RunnerState) : HandleUpdateResult :=
  if st.character.dead = true then ⟨st, false, false⟩
  else if st.character.numPoints ≤ 3 then
    let st1 := updatePath false st
    let st2 := { st1 with character := env.removePassedBlocks st1.character }
    if st2.blocks.length ≤ 0 then ⟨(createLevel env fuel st2).state, true, true⟩
    else ⟨st2, true, false⟩
  else ⟨st, false, false⟩

/-- Chain invariant for the attempt trace of the placement loop, entered with
a current consecutive-rejection streak of `s`: every record's starting retry
counter equals `30 - s` for the streak at that point (a rejection extends the
streak, an acceptance resets it since acceptance resets the counter to 30),
and a record that tripped the assertion has counter 0, is a rejection, and
ends the trace.  Consequently the assertion fires only on the rejection that
follows 30 consecutive rejections. -/
def retryChain (s : Nat) : List AttemptRecord → Prop
  | [] => True
  | r :: t =>
    r.counterBefore = 30 - s ∧
    (r.failed = true → r.counterBefore = 0 ∧ r.accepted = false ∧ t = []) ∧
    retryChain (if r.accepted = true then 0 else s + 1) t

/-- Urho3D `M_EPSILON` (`0.000001f`), as an exact rational. -/
def M_EPSILON : ℚ := 1 / 1000000

/-- Urho3D `Equals(lhs, rhs)`: `lhs + M_EPSILON >= rhs && lhs - M_EPSILON <= rhs`. -/
def urhoEquals (lhs rhs : ℚ) : Bool :=
  decide (lhs + M_EPSILON ≥ rhs) && decide (lhs - M_EPSILON ≤ rhs)

/-- Integer 2-vector (engine `IntVector2`), the averaged touch delta. -/
structure IntVector2 where
  x : Int
  y : Int
deriving DecidableEq

/-- `Touch::IsBack` (src/Touch.cpp lines 327-333). -/
def IsBack (delta : IntVector2) (degree : ℚ) : Bool :=
  urhoEquals degree (-90) || (decide (degree < -45) && decide (degree > -90))
    || (decide (degree < -90) && decide (degree > -135))

/-- `Touch::IsLeft` (src/Touch.cpp lines 335-341). -/
def IsLeft (delta : IntVector2) (degree : ℚ) : Bool :=
  urhoEquals degree (-180) || (decide (degree < 180) && decide (degree > 135))
    || (decide (degree > -180) && decide (degree < -135))

/-- `Touch::IsRight` (src/Touch.cpp lines 343-349). -/
def IsRight (delta : IntVector2) (degree : ℚ) : Bool :=
  urhoEquals degree 0 || (decide (degree < 45) && decide (degree > 0))
    || (decide (degree < 0) && decide (degree > -45))

/-- `Touch::IsUp` (src/Touch.cpp lines 351-357). -/
def IsUp (delta : IntVector2) (degree : ℚ) : Bool :=
  urhoEquals degree 90 || (decide (degree < 90) && decide (degree > 45))
    || (decide (degree < 135) && decide (degree > 90))

/-- Whether any of the four touch direction predicates holds. -/
def anyDirection (delta : IntVector2) (degree : ℚ) : Bool :=
  IsLeft delta degree || IsRight delta degree || IsBack delta degree || IsUp delta degree

/-- The identity rotation, used for concrete instances. -/
def rotId : Rot := ⟨fun v => v⟩

/-- The origin vector. -/
def v0 : Vec3 := ⟨0, 0, 0⟩

/-- A socket at the origin. -/
def sock0 : Socket := ⟨v0, rotId⟩

/-- A concrete right-exit socket. -/
def sockR : Socket := ⟨⟨1, 0, 0⟩, rotId⟩

/-- A concrete left-exit socket, at a different position than `sockR`. -/
def sockL : Socket := ⟨⟨2, 0, 0⟩, rotId⟩

/-- A concrete 0-exit block (dead end / terminal straight). -/
def blockZero : BlockData :=
  { outs := 0, sockets := fun _ => sock0, paths := fun _ => [], groups := [] }

/-- A concrete 1-exit block. -/
def blockOne : BlockData :=
  { outs := 1, sockets := fun _ => sock0, paths := fun _ => [], groups := [] }

/-- A concrete fork block whose `OutL` and `OutR` sockets sit at distinct
world positions. -/
def blockFork : BlockData :=
  { outs := 2, sockets := fun s => if s = "OutL" then sockL else sockR,
    paths := fun _ => [], groups := [] }

/-- A 0-exit block carrying one center rail point, to observe point loss. -/
def blockZeroPt : BlockData :=
  { blockZero with paths := fun s => if s = "CenterIn" then [⟨7, 0, 0⟩] else [] }

/-- A character with a pending fork decision. -/
def charPending : Character :=
  { turnState := TurnState.noSucceeded, leftPath := [], rightPath := [],
    centerPath := [], numPoints := 2, dead := false }

/-- A character that has resolved the fork to the left. -/
def charLeft : Character :=
  { charPending with turnState := TurnState.leftSucceeded }

/-- A base concrete environment: one-block catalog, no obstructions. -/
def envBase : Env :=
  { blockNames := ["Objects/Block1.xml"], instantiate := fun _ _ => blockZero,
    raycastHit := fun _ => false, rng := fun _ => 0,
    removePassedBlocks := fun c => c }

/-- Environment whose catalog instantiates the concrete fork block. -/
def envFork : Env :=
  { envBase with instantiate := fun _ _ => blockFork }

/-- Environment matching the spec's two-block scenario: a 0-exit start block
at index 0 and a 2-exit fork at index 1, with the random stream constantly 1. -/
def envC3 : Env :=
  { envBase with
    blockNames := ["Objects/Start.xml", "Objects/Fork.xml"]
    instantiate := fun _ i => if i = 0 then blockZero else blockFork
    rng := fun _ => 1 }

/-- Environment whose raycast always reports a hit. -/
def envHit : Env :=
  { envBase with raycastHit := fun _ => true }

/-- Concrete state: a 0-exit block with a rail point queued ahead of a fork,
turn decision pending. -/
def stC2 : RunnerState :=
  { blocks := [blockZeroPt, blockFork], numBlocks := 2, rngIdx := 0,
    lastOutPos := v0, lastOutRot := rotId, character := charPending }

/-- Concrete state: a fork at the front of the queue, turn resolved left. -/
def stC4 : RunnerState :=
  { blocks := [blockFork], numBlocks := 1, rngIdx := 0, lastOutPos := v0,
    lastOutRot := rotId, character := charLeft }

/-- Concrete state: three 1-exit blocks queued, character alive with 2 path
points left. -/
def stC8 : RunnerState :=
  { blocks := [blockOne, blockOne, blockOne], numBlocks := 3, rngIdx := 0,
    lastOutPos := v0, lastOutRot := rotId, character := charPending }

/-- Concrete state for exercising `createLevel` from an empty queue. -/
def stEmpty : RunnerState :=
  { blocks := [], numBlocks := 0, rngIdx := 0, lastOutPos := v0,
    lastOutRot := rotId, character := charPending }

/-- Concrete groups list: two groups, each with one animated and one static
item, everything enabled and without controllers. -/
def groupsTwo : List GroupNode :=
  [⟨true, [⟨true, false, true⟩, ⟨false, false, true⟩]⟩,
   ⟨true, [⟨true, false, true⟩, ⟨false, false, true⟩]⟩]

/-- A state with the fork decision resolved to the right. -/
def charRight : Character :=
  { charPending with turnState := TurnState.rightSucceeded }

/-- Concrete state: a fork at the front of the queue, turn resolved right. -/
def stC4R : RunnerState :=
  { stC4 with character := charRight }

lemma isBack_char (d : IntVector2) (deg : ℚ) :
    IsBack d deg = true ↔
      (-90 ≤ deg + M_EPSILON ∧ deg - M_EPSILON ≤ -90) ∨
      (deg < -45 ∧ -90 < deg) ∨ (deg < -90 ∧ -135 < deg) := by
  simp [IsBack, urhoEquals, Bool.or_eq_true, Bool.and_eq_true, decide_eq_true_eq,
    ge_iff_le, gt_iff_lt, or_assoc]

lemma isLeft_char (d : IntVector2) (deg : ℚ) :
    IsLeft d deg = true ↔
      (-180 ≤ deg + M_EPSILON ∧ deg - M_EPSILON ≤ -180) ∨
      (deg < 180 ∧ 135 < deg) ∨ (-180 < deg ∧ deg < -135) := by
  simp [IsLeft, urhoEquals, Bool.or_eq_true, Bool.and_eq_true, decide_eq_true_eq,
    ge_iff_le, gt_iff_lt, or_assoc]

lemma isRight_char (d : IntVector2) (deg : ℚ) :
    IsRight d deg = true ↔
      (0 ≤ deg + M_EPSILON ∧ deg - M_EPSILON ≤ 0) ∨
      (deg < 45 ∧ 0 < deg) ∨ (deg < 0 ∧ -45 < deg) := by
  simp [IsRight, urhoEquals, Bool.or_eq_true, Bool.and_eq_true, decide_eq_true_eq,
    ge_iff_le, gt_iff_lt, or_assoc]

lemma isUp_char (d : IntVector2) (deg : ℚ) :
    IsUp d deg = true ↔
      (90 ≤ deg + M_EPSILON ∧ deg - M_EPSILON ≤ 90) ∨
      (deg < 90 ∧ 45 < deg) ∨ (deg < 135 ∧ 90 < deg) := by
  simp [IsUp, urhoEquals, Bool.or_eq_true, Bool.and_eq_true, decide_eq_true_eq,
    ge_iff_le, gt_iff_lt, or_assoc]

lemma bool_and_false {a b : Bool} (h : ¬(a = true ∧ b = true)) : (a && b) = false := by
  cases a <;> cases b <;> simp_all

lemma isLeft_false (d : IntVector2) (deg : ℚ)
    (h : ¬((-180 ≤ deg + M_EPSILON ∧ deg - M_EPSILON ≤ -180) ∨
        (deg < 180 ∧ 135 < deg) ∨ (-180 < deg ∧ deg < -135))) :
    IsLeft d deg = false := by
  cases hh : IsLeft d deg
  · rfl
  · exact absurd ((isLeft_char d deg).mp hh) h

lemma isRight_false (d : IntVector2) (deg : ℚ)
    (h : ¬((0 ≤ deg + M_EPSILON ∧ deg - M_EPSILON ≤ 0) ∨
        (deg < 45 ∧ 0 < deg) ∨ (deg < 0 ∧ -45 < deg))) :
    IsRight d deg = false := by
  cases hh : IsRight d deg
  · rfl
  · exact absurd ((isRight_char d deg).mp hh) h

lemma isBack_false (d : IntVector2) (deg : ℚ)
    (h : ¬((-90 ≤ deg + M_EPSILON ∧ deg - M_EPSILON ≤ -90) ∨
        (deg < -45 ∧ -90 < deg) ∨ (deg < -90 ∧ -135 < deg))) :
    IsBack d deg = false := by
  cases hh : IsBack d deg
  · rfl
  · exact absurd ((isBack_char d deg).mp hh) h

lemma isUp_false (d : IntVector2) (deg : ℚ)
    (h : ¬((90 ≤ deg + M_EPSILON ∧ deg - M_EPSILON ≤ 90) ∨
        (deg < 90 ∧ 45 < deg) ∨ (deg < 135 ∧ 90 < deg))) :
    IsUp d deg = false := by
  cases hh : IsUp d deg
  · rfl
  · exact absurd ((isUp_char d deg).mp hh) h

lemma anyDirection_false_of (d : IntVector2) (deg : ℚ)
    (h1 : IsLeft d deg = false) (h2 : IsRight d deg = false)
    (h3 : IsBack d deg = false) (h4 : IsUp d deg = false) :
    anyDirection d deg = false := by
  simp [anyDirection, h1, h2, h3, h4]

lemma anyDirection_boundary (d : IntVector2) (deg : ℚ)
    (h : deg = 45 ∨ deg = -45 ∨ deg = 135 ∨ deg = -135 ∨ deg = 180) :
    anyDirection d deg = false := by
  refine anyDirection_false_of d deg (isLeft_false d deg ?_) (isRight_false d deg ?_)
    (isBack_false d deg ?_) (isUp_false d deg ?_) <;>
  · rcases h with h | h | h | h | h <;> subst h <;> norm_num [M_EPSILON]

/-- Claim C9: the four touch-direction predicates of `Touch` are mutually
exclusive (for every angle at most one of `IsLeft`, `IsRight`, `IsBack`,
`IsUp` returns true), each predicate's result depends only on the angle and
not on the delta argument, and the diagonal boundary angles `45`, `-45`,
`135`, `-135` and `180` satisfy none of the four. -/
theorem c9_touch_direction_predicates (d1 d2 : IntVector2) (deg : ℚ) :
    (IsLeft d1 deg && IsRight d1 deg) = false ∧
    (IsLeft d1 deg && IsBack d1 deg) = false ∧
    (IsLeft d1 deg && IsUp d1 deg) = false ∧
    (IsRight d1 deg && IsBack d1 deg) = false ∧
    (IsRight d1 deg && IsUp d1 deg) = false ∧
    (IsBack d1 deg && IsUp d1 deg) = false ∧
    IsLeft d1 deg = IsLeft d2 deg ∧
    IsRight d1 deg = IsRight d2 deg ∧
    IsBack d1 deg = IsBack d2 deg ∧
    IsUp d1 deg = IsUp d2 deg ∧
    anyDirection d1 45 = false ∧
    anyDirection d1 (-45) = false ∧
    anyDirection d1 135 = false ∧
    anyDirection d1 (-135) = false ∧
    anyDirection d1 180 = false := by
  refine ⟨?_, ?_, ?_, ?_, ?_, ?_, rfl, rfl, rfl, rfl,
    anyDirection_boundary d1 45 (by norm_num), anyDirection_boundary d1 (-45) (by norm_num),
    anyDirection_boundary d1 135 (by norm_num), anyDirection_boundary d1 (-135) (by norm_num),
    anyDirection_boundary d1 180 (by norm_num)⟩
  · apply bool_and_false
    rintro ⟨hA, hB⟩
    rw [isLeft_char] at hA
    rw [isRight_char] at hB
    simp only [M_EPSILON] at hA hB
    rcases hA with ⟨a1, a2⟩ | ⟨a1, a2⟩ | ⟨a1, a2⟩ <;>
      rcases hB with ⟨b1, b2⟩ | ⟨b1, b2⟩ | ⟨b1, b2⟩ <;> linarith
  · apply bool_and_false
    rintro ⟨hA, hB⟩
    rw [isLeft_char] at hA
    rw [isBack_char] at hB
    simp only [M_EPSILON] at hA hB
    rcases hA with ⟨a1, a2⟩ | ⟨a1, a2⟩ | ⟨a1, a2⟩ <;>
      rcases hB with ⟨b1, b2⟩ | ⟨b1, b2⟩ | ⟨b1, b2⟩ <;> linarith
  · apply bool_and_false
    rintro ⟨hA, hB⟩
    rw [isLeft_char] at hA
    rw [isUp_char] at hB
    simp only [M_EPSILON] at hA hB
    rcases hA with ⟨a1, a2⟩ | ⟨a1, a2⟩ | ⟨a1, a2⟩ <;>
      rcases hB with ⟨b1, b2⟩ | ⟨b1, b2⟩ | ⟨b1, b2⟩ <;> linarith
  · apply bool_and_false
    rintro ⟨hA, hB⟩
    rw [isRight_char] at hA
    rw [isBack_char] at hB
    simp only [M_EPSILON] at hA hB
    rcases hA with ⟨a1, a2⟩ | ⟨a1, a2⟩ | ⟨a1, a2⟩ <;>
      rcases hB with ⟨b1, b2⟩ | ⟨b1, b2⟩ | ⟨b1, b2⟩ <;> linarith
  · apply bool_and_false
    rintro ⟨hA, hB⟩
    rw [isRight_char] at hA
    rw [isUp_char] at hB
    simp only [M_EPSILON] at hA hB
    rcases hA with ⟨a1, a2⟩ | ⟨a1, a2⟩ | ⟨a1, a2⟩ <;>
      rcases hB with ⟨b1, b2⟩ | ⟨b1, b2⟩ | ⟨b1, b2⟩ <;> linarith
  · apply bool_and_false
    rintro ⟨hA, hB⟩
    rw [isBack_char] at hA
    rw [isUp_char] at hB
    simp only [M_EPSILON] at hA hB
    rcases hA with ⟨a1, a2⟩ | ⟨a1, a2⟩ | ⟨a1, a2⟩ <;>
      rcases hB with ⟨b1, b2⟩ | ⟨b1, b2⟩ | ⟨b1, b2⟩ <;> linarith

lemma probeLoop_hit (env : Env) (outs : Nat) (outNode : Socket) (outName : String)
    (n maxRec : Nat) (posix : String)
    (h : env.raycastHit (mkProbeRay outNode) = true) :
    probeLoop env outs outNode outName (n + 1) maxRec posix =
      if maxRec = 0 then ⟨[mkProbeRay outNode], [outName], false, maxRec, true, posix⟩
      else ⟨[mkProbeRay outNode], [outName], false, maxRec - 1, false, posix⟩ := by
  by_cases hm : maxRec = 0 <;> simp [probeLoop, h, hm]

lemma probeLoop_nohit_one (env : Env) (outs : Nat) (outNode : Socket) (outName : String)
    (maxRec : Nat) (posix : String)
    (h : env.raycastHit (mkProbeRay outNode) = false) :
    probeLoop env outs outNode outName 1 maxRec posix =
      ⟨[mkProbeRay outNode], [outName], true, 30, false,
        if 2 ≤ outs then "L" else posix⟩ := by
  by_cases h2 : 2 ≤ outs <;> simp [probeLoop, h, h2]

lemma probeLoop_nohit_two (env : Env) (outs : Nat) (outNode : Socket) (outName : String)
    (maxRec : Nat) (posix : String)
    (h : env.raycastHit (mkProbeRay outNode) = false) :
    probeLoop env outs outNode outName 2 maxRec posix =
      ⟨[mkProbeRay outNode, mkProbeRay outNode], [outName, outName], true, 30, false,
        if 2 ≤ outs then "L" else posix⟩ := by
  by_cases h2 : 2 ≤ outs <;> simp [probeLoop, h, h2]

lemma probe_attempt_core (env : Env) (outs : Nat) (outNode : Socket) (outName : String)
    (maxRec : Nat) (posix : String) :
    (probeLoop env outs outNode outName (if 2 ≤ outs then 2 else 1) maxRec posix).accepted
        = !(env.raycastHit (mkProbeRay outNode)) ∧
    (probeLoop env outs outNode outName (if 2 ≤ outs then 2 else 1) maxRec posix).assertFailed
        = (env.raycastHit (mkProbeRay outNode) && decide (maxRec = 0)) ∧
    (!(probeLoop env outs outNode outName (if 2 ≤ outs then 2 else 1) maxRec posix).accepted
        && !(probeLoop env outs outNode outName (if 2 ≤ outs then 2 else 1) maxRec posix).assertFailed)
        = (env.raycastHit (mkProbeRay outNode) && !decide (maxRec = 0)) ∧
    (probeLoop env outs outNode outName (if 2 ≤ outs then 2 else 1) maxRec posix).maxRec
        = (if env.raycastHit (mkProbeRay outNode) = true then maxRec - 1 else 30) ∧
    (probeLoop env outs outNode outName (if 2 ≤ outs then 2 else 1) maxRec posix).probed
        = List.replicate
            (if env.raycastHit (mkProbeRay outNode) = true then 1
             else if 2 ≤ outs then 2 else 1)
            (mkProbeRay outNode) ∧
    (probeLoop env outs outNode outName (if 2 ≤ outs then 2 else 1) maxRec posix).probedNames
        = List.replicate
            (if env.raycastHit (mkProbeRay outNode) = true then 1
             else if 2 ≤ outs then 2 else 1)
            outName := by
  by_cases hh : env.raycastHit (mkProbeRay outNode) = true
  · by_cases h2 : 2 ≤ outs <;> by_cases hm : maxRec = 0 <;>
      simp [h2, hm, hh, probeLoop_hit]
  · rw [Bool.not_eq_true] at hh
    by_cases h2 : 2 ≤ outs
    · simp [h2, hh, probeLoop_nohit_two env outs outNode outName maxRec posix hh]
    · simp [h2, hh, probeLoop_nohit_one env outs outNode outName maxRec posix hh]

lemma attempt_probe_spec (env : Env) (numBlocks maxRec rngIdx : Nat) :
    (attempt env numBlocks maxRec rngIdx).accepted
        = !(env.raycastHit (mkProbeRay (attempt env numBlocks maxRec rngIdx).outSocket)) ∧
    (attempt env numBlocks maxRec rngIdx).assertFailed
        = (env.raycastHit (mkProbeRay (attempt env numBlocks maxRec rngIdx).outSocket)
            && decide (maxRec = 0)) ∧
    (attempt env numBlocks maxRec rngIdx).removed
        = (env.raycastHit (mkProbeRay (attempt env numBlocks maxRec rngIdx).outSocket)
            && !decide (maxRec = 0)) ∧
    (attempt env numBlocks maxRec rngIdx).maxRecursive
        = (if env.raycastHit (mkProbeRay (attempt env numBlocks maxRec rngIdx).outSocket) = true
           then maxRec - 1 else 30) ∧
    (attempt env numBlocks maxRec rngIdx).probed
        = List.replicate
            (if env.raycastHit (mkProbeRay (attempt env numBlocks maxRec rngIdx).outSocket) = true
             then 1 else if 2 ≤ (attempt env numBlocks maxRec rngIdx).outs then 2 else 1)
            (mkProbeRay (attempt env numBlocks maxRec rngIdx).outSocket) ∧
    (attempt env numBlocks maxRec rngIdx).probedNames
        = List.replicate
            (if env.raycastHit (mkProbeRay (attempt env numBlocks maxRec rngIdx).outSocket) = true
             then 1 else if 2 ≤ (attempt env numBlocks maxRec rngIdx).outs then 2 else 1)
            ((attempt env numBlocks maxRec rngIdx).outName) :=
  probe_attempt_core env (attempt env numBlocks maxRec rngIdx).outs
    (attempt env numBlocks maxRec rngIdx).outSocket
    (attempt env numBlocks maxRec rngIdx).outName maxRec
    (if 2 ≤ (attempt env numBlocks maxRec rngIdx).outs then "R" else "")

lemma attempt_outName (env : Env) (numBlocks maxRec rngIdx : Nat) :
    (attempt env numBlocks maxRec rngIdx).outName
      = (if 2 ≤ (attempt env numBlocks maxRec rngIdx).outs then "OutR" else "Out") := by
  have h0 : (attempt env numBlocks maxRec rngIdx).outName
      = "Out" ++ (if 2 ≤ (attempt env numBlocks maxRec rngIdx).outs then "R" else "") := rfl
  by_cases h2 : 2 ≤ (attempt env numBlocks maxRec rngIdx).outs
  · rw [h0, if_pos h2, if_pos h2]
    rfl
  · rw [h0, if_neg h2, if_neg h2]
    rfl

lemma attempt_outSocket (env : Env) (numBlocks maxRec rngIdx : Nat) :
    (attempt env numBlocks maxRec rngIdx).outSocket
      = (attempt env numBlocks maxRec rngIdx).block.sockets
          ((attempt env numBlocks maxRec rngIdx).outName) := rfl

/-- Claim C1 (amended): the set of exit sockets the clearance probe actually
validates is: for exit count at least 2, the right exit socket `OutR` only —
probed twice when the first probe misses, once when it hits, and never the
left socket, because the probed node is fetched once before the loop; for exit
count 1 and also for exit count 0, the single `Out` socket, probed exactly
once.  No segment skips validation. -/
theorem c1_validated_sockets (env : Env) (numBlocks maxRec rngIdx : Nat) :
    (attempt env numBlocks maxRec rngIdx).probedNames
        = List.replicate
            (if env.raycastHit (mkProbeRay (attempt env numBlocks maxRec rngIdx).outSocket) = true
             then 1 else if 2 ≤ (attempt env numBlocks maxRec rngIdx).outs then 2 else 1)
            ((attempt env numBlocks maxRec rngIdx).outName) ∧
    (attempt env numBlocks maxRec rngIdx).outName
        = (if 2 ≤ (attempt env numBlocks maxRec rngIdx).outs then "OutR" else "Out") :=
  ⟨(attempt_probe_spec env numBlocks maxRec rngIdx).2.2.2.2.2,
    attempt_outName env numBlocks maxRec rngIdx⟩

/-- Claim C1 is false on the code at concrete inputs: a 0-exit segment is
probed once at its `Out` socket rather than not at all, and a fork segment is
probed twice at `OutR` rather than at `OutR` then `OutL`. -/
theorem c1_counterexample :
    (attempt envBase 5 30 0).outs = 0 ∧
    (attempt envBase 5 30 0).probedNames = ["Out"] ∧
    (attempt envBase 5 30 0).probedNames ≠ [] ∧
    (attempt envFork 5 30 0).outs = 2 ∧
    (attempt envFork 5 30 0).probedNames = ["OutR", "OutR"] ∧
    (attempt envFork 5 30 0).probedNames ≠ ["OutR", "OutL"] := by
  refine ⟨rfl, rfl, ?_, rfl, rfl, ?_⟩ <;> decide

/-- Claim C5: the very first placement of a fresh level (placed-segment
counter `numBlocks_` equal to zero) takes catalog index 0 regardless of the
random draw, and every other placement takes the uniform draw
`Random(maxBlockNumber)` over the whole catalog; the draw can produce every
catalog index. -/
theorem c5_first_block_forced (env : Env) (numBlocks maxRec rngIdx : Nat) :
    (attempt env numBlocks maxRec rngIdx).chosenIdx
        = (if numBlocks = 0 then 0 else random (env.rng rngIdx) env.blockNames.length) ∧
    (∀ i : Nat, i < env.blockNames.length → random i env.blockNames.length = i) := by
  refine ⟨rfl, fun i hi => ?_⟩
  rw [random, if_neg (by omega)]
  exact Nat.mod_eq_of_lt hi

/-- Witness for C5 at concrete inputs: with an empty level the forced index is
0 even though the stream draw is 1, and the draw reaches index 1 of the
two-entry catalog. -/
theorem c5_witness :
    (attempt envC3 0 30 0).chosenIdx = 0 ∧ random 1 envC3.blockNames.length = 1 :=
  ⟨(c5_first_block_forced envC3 0 30 0).1,
    (c5_first_block_forced envC3 0 30 0).2 1 (by decide)⟩

/-- Claim C7: every clearance probe of a placement attempt is the single ray
whose origin is the probed socket's world position, whose direction is that
socket's world rotation applied to the local left axis, whose maximum distance
is exactly 20 and whose collision filter is the floor layer mask; the
placement is rejected exactly when the raycast reports a hit. -/
theorem c7_probe_shape (env : Env) (numBlocks maxRec rngIdx : Nat) :
    (attempt env numBlocks maxRec rngIdx).probed
        = List.replicate
            (if env.raycastHit (mkProbeRay (attempt env numBlocks maxRec rngIdx).outSocket) = true
             then 1 else if 2 ≤ (attempt env numBlocks maxRec rngIdx).outs then 2 else 1)
            (mkProbeRay (attempt env numBlocks maxRec rngIdx).outSocket) ∧
    (attempt env numBlocks maxRec rngIdx).accepted
        = !(env.raycastHit (mkProbeRay (attempt env numBlocks maxRec rngIdx).outSocket)) ∧
    (∀ s : Socket,
      mkProbeRay s = ⟨s.pos, s.rot.apply Vector3LEFT, 20, FLOOR_COLLISION_MASK⟩) :=
  ⟨(attempt_probe_spec env numBlocks maxRec rngIdx).2.2.2.2.1,
    (attempt_probe_spec env numBlocks maxRec rngIdx).1, fun _ => rfl⟩

lemma updatePathGo_startIn_pos (turn : TurnState) :
    ∀ (blocks : List BlockData) (lp rp cp : List Vec3) (pos : Vec3) (rot : Rot),
      (updatePathGo turn blocks true lp rp cp pos rot).pos = pos ∧
      (updatePathGo turn blocks true lp rp cp pos rot).rot = rot := by
  intro blocks
  induction blocks with
  | nil => intro lp rp cp pos rot; simp [updatePathGo]
  | cons b rest ih =>
    intro lp rp cp pos rot
    by_cases ho : 0 < b.outs
    · simp [updatePathGo, ho]
    · simp [updatePathGo, ho]
      exact ih _ _ _ _ _

lemma updatePath_projections (startIn : Bool) (st : RunnerState) :
    (updatePath startIn st).lastOutPos
      = (updatePathGo st.character.turnState st.blocks startIn [] [] []
          st.lastOutPos st.lastOutRot).pos ∧
    (updatePath startIn st).lastOutRot
      = (updatePathGo st.character.turnState st.blocks startIn [] [] []
          st.lastOutPos st.lastOutRot).rot ∧
    (updatePath startIn st).blocks
      = (updatePathGo st.character.turnState st.blocks startIn [] [] []
          st.lastOutPos st.lastOutRot).blocks := by
  simp only [updatePath]
  split <;> exact ⟨rfl, rfl, rfl⟩

lemma updatePathGo_fork_resolved (turn : TurnState) (hturn : turn ≠ TurnState.noSucceeded)
    (fork : BlockData) (h2 : 2 ≤ fork.outs) (rest : List BlockData)
    (lp rp cp : List Vec3) (pos : Vec3) (rot : Rot) :
    (updatePathGo turn (fork :: rest) false lp rp cp pos rot).pos
        = (fork.sockets ("Out" ++ (if turn = TurnState.leftSucceeded then "L" else "R"))).pos ∧
    (updatePathGo turn (fork :: rest) false lp rp cp pos rot).rot
        = (fork.sockets ("Out" ++ (if turn = TurnState.leftSucceeded then "L" else "R"))).rot := by
  have h0 : ¬(fork.outs = 0) := by omega
  have hp2 : 0 < fork.outs := by omega
  simp only [updatePathGo]
  simp [hturn, h2, h0, hp2]
  exact updatePathGo_startIn_pos turn rest _ _ _ _ _

/-- Claim C4 (amended): at placement time `CreateLevel` anchors an accepted
fork at its `OutR` socket (the captured probe node), and acceptance means the
probe ray from that socket reported no hit; when the fork's turn decision is
later resolved, `UpdatePath` overwrites the anchor transform with the chosen
branch socket (`OutL` on a left decision, `OutR` on a right decision), a
socket that was not necessarily validated by any clearance probe. -/
theorem c4_anchor_choice (env : Env) (numBlocks maxRec rngIdx : Nat)
    (st : RunnerState) (fork : BlockData) (rest : List BlockData) :
    (2 ≤ (attempt env numBlocks maxRec rngIdx).outs →
      (attempt env numBlocks maxRec rngIdx).outSocket
        = (attempt env numBlocks maxRec rngIdx).block.sockets "OutR") ∧
    ((attempt env numBlocks maxRec rngIdx).accepted = true →
      env.raycastHit (mkProbeRay (attempt env numBlocks maxRec rngIdx).outSocket) = false) ∧
    (st.blocks = fork :: rest → 2 ≤ fork.outs →
      st.character.turnState = TurnState.leftSucceeded →
        (updatePath false st).lastOutPos = (fork.sockets "OutL").pos ∧
        (updatePath false st).lastOutRot = (fork.sockets "OutL").rot) ∧
    (st.blocks = fork :: rest → 2 ≤ fork.outs →
      st.character.turnState = TurnState.rightSucceeded →
        (updatePath false st).lastOutPos = (fork.sockets "OutR").pos ∧
        (updatePath false st).lastOutRot = (fork.sockets "OutR").rot) := by
  refine ⟨?_, ?_, ?_, ?_⟩
  · intro h2
    rw [attempt_outSocket, attempt_outName, if_pos h2]
  · intro ha
    have hs := (attempt_probe_spec env numBlocks maxRec rngIdx).1
    rw [ha] at hs
    cases hh : env.raycastHit (mkProbeRay (attempt env numBlocks maxRec rngIdx).outSocket)
    · rfl
    · rw [hh] at hs
      exact absurd hs (by decide)
  · intro hb h2 ht
    obtain ⟨hp, hr, _⟩ := updatePath_projections false st
    rw [hp, hr, hb, ht]
    exact updatePathGo_fork_resolved TurnState.leftSucceeded (by decide) fork h2 rest
      [] [] [] st.lastOutPos st.lastOutRot
  · intro hb h2 ht
    obtain ⟨hp, hr, _⟩ := updatePath_projections false st
    rw [hp, hr, hb, ht]
    exact updatePathGo_fork_resolved TurnState.rightSucceeded (by decide) fork h2 rest
      [] [] [] st.lastOutPos st.lastOutRot

/-- Claim C4 is false on the code at a concrete input: with the fork resolved
left, `UpdatePath` sets the anchor to the `OutL` socket position `(2,0,0)`,
yet every clearance probe of the fork's placement originated at the `OutR`
socket position `(1,0,0)` — the anchor socket never passed (nor received) a
clearance probe. -/
theorem c4_counterexample :
    (updatePath false stC4).lastOutPos = ⟨2, 0, 0⟩ ∧
    (attempt envFork 1 30 0).probedNames = ["OutR", "OutR"] ∧
    (attempt envFork 1 30 0).probed.map ProbeRay.origin = [⟨1, 0, 0⟩, ⟨1, 0, 0⟩] ∧
    ¬((⟨2, 0, 0⟩ : Vec3) ∈ (attempt envFork 1 30 0).probed.map ProbeRay.origin) := by
  refine ⟨rfl, rfl, ?_, ?_⟩ <;> decide

/-- Witness for the amended C4 at concrete inputs. -/
theorem c4_witness :
    (attempt envFork 1 30 0).outSocket = (attempt envFork 1 30 0).block.sockets "OutR" ∧
    envFork.raycastHit (mkProbeRay (attempt envFork 1 30 0).outSocket) = false ∧
    (updatePath false stC4).lastOutPos = (blockFork.sockets "OutL").pos ∧
    (updatePath false stC4R).lastOutPos = (blockFork.sockets "OutR").pos := by
  refine ⟨?_, ?_, ?_, ?_⟩
  · exact (c4_anchor_choice envFork 1 30 0 stC4 blockFork []).1 (by decide)
  · exact (c4_anchor_choice envFork 1 30 0 stC4 blockFork []).2.1 (by decide)
  · exact ((c4_anchor_choice envFork 1 30 0 stC4 blockFork []).2.2.1 rfl (by decide) rfl).1
  · exact ((c4_anchor_choice envFork 1 30 0 stC4R blockFork []).2.2.2 rfl (by decide) rfl).1

lemma updatePathGo_pending (rest : List BlockData) (fork : BlockData) (h2 : 2 ≤ fork.outs) :
    ∀ (zeros : List BlockData) (lp rp cp : List Vec3) (pos : Vec3) (rot : Rot),
      (∀ b ∈ zeros, b.outs = 0) →
      (updatePathGo TurnState.noSucceeded (zeros ++ fork :: rest) false lp rp cp pos rot).blocks
          = fork :: rest ∧
      (updatePathGo TurnState.noSucceeded (zeros ++ fork :: rest) false lp rp cp pos rot).earlyReturn
          = true ∧
      (updatePathGo TurnState.noSucceeded (zeros ++ fork :: rest) false lp rp cp pos rot).pos
          = pos ∧
      (updatePathGo TurnState.noSucceeded (zeros ++ fork :: rest) false lp rp cp pos rot).rot
          = rot := by
  intro zeros
  induction zeros with
  | nil =>
    intro lp rp cp pos rot _
    simp [updatePathGo, h2]
  | cons z zs ih =>
    intro lp rp cp pos rot hz
    have hz0 : z.outs = 0 := hz z (by simp)
    simp [updatePathGo, hz0]
    exact ih _ _ _ _ _ (fun b hb => hz b (by simp [hb]))

/-- Claim C2 (amended): when `UpdatePath(false)` reaches a fork while the turn
state is still pending, it returns early without appending anything to the
character's path sequences and without touching the anchor transform; the
queue keeps the fork at its front.  The call leaves the queue completely
unchanged exactly when the fork is the front block — 0-exit blocks sitting
ahead of the fork are popped before the early return fires and the rail
points collected from them are discarded. -/
theorem c2_pending_early_return (st : RunnerState) (zeros rest : List BlockData)
    (fork : BlockData)
    (h1 : st.character.turnState = TurnState.noSucceeded)
    (h2 : st.blocks = zeros ++ fork :: rest)
    (h3 : ∀ b ∈ zeros, b.outs = 0)
    (h4 : 2 ≤ fork.outs) :
    updatePath false st = { st with blocks := fork :: rest } := by
  obtain ⟨hb, he, hp, hr⟩ :=
    updatePathGo_pending rest fork h4 zeros [] [] [] st.lastOutPos st.lastOutRot h3
  simp only [updatePath]
  rw [h1, h2, he]
  simp only [if_true]
  rw [hb, hp, hr]

/-- Claim C2 is false on the code at a concrete input: with a 0-exit block
(carrying a center rail point) queued ahead of a fork and the turn pending,
the call pops the 0-exit block (the queue shrinks from 2 to 1) and appends
none of its collected points to the character (the center rail stays empty),
so the popped block's points are lost. -/
theorem c2_counterexample :
    stC2.character.turnState = TurnState.noSucceeded ∧
    stC2.blocks.length = 2 ∧
    (updatePath false stC2).blocks.length = 1 ∧
    blockZeroPt.paths "CenterIn" = [⟨7, 0, 0⟩] ∧
    (updatePath false stC2).character.centerPath = [] := by
  refine ⟨rfl, rfl, rfl, by decide, rfl⟩

/-- Witness for the amended C2 at a concrete input. -/
theorem c2_witness :
    updatePath false stC2 = { stC2 with blocks := [blockFork] } :=
  c2_pending_early_return stC2 [blockZeroPt] [] blockFork rfl rfl
    (by intro b hb; simp at hb; rw [hb]; rfl) (by decide)

/-- Claim C8 (amended): while the character is alive, each per-frame update
rebuilds/extends the path exactly when at most 3 path points remain; the
placement engine is re-run (a new extension batch) exactly when, after that
rebuild, the placement queue has become empty — there is no low-water mark of
3 queued segments. -/
theorem c8_replenish_condition (env : Env) (fuel : Nat) (st : RunnerState) :
    (handleUpdateStep env fuel st).updatePathCalled
        = (!st.character.dead && decide (st.character.numPoints ≤ 3)) ∧
    (handleUpdateStep env fuel st).createLevelCalled
        = (!st.character.dead && decide (st.character.numPoints ≤ 3)
            && decide ((updatePath false st).blocks.length = 0)) := by
  by_cases hd : st.character.dead = true
  · simp [handleUpdateStep, hd]
  · rw [Bool.not_eq_true] at hd
    by_cases hp : st.character.numPoints ≤ 3
    · by_cases he : (updatePath false st).blocks.length = 0
      · simp [handleUpdateStep, hd, hp, he]
      · have he' : ¬((updatePath false st).blocks.length ≤ 0) := by omega
        simp [handleUpdateStep, hd, hp, he, he']
    · simp [handleUpdateStep, hd, hp]

/-- Claim C8 is false on the code at a concrete input: the character is alive
with 2 path points left, the rebuild leaves 2 segments in the queue — below
the claimed low-water mark of 3 but nonempty — and no extension batch runs. -/
theorem c8_counterexample :
    stC8.character.dead = false ∧
    stC8.character.numPoints = 2 ∧
    (handleUpdateStep envBase 9 stC8).state.blocks.length = 2 ∧
    (handleUpdateStep envBase 9 stC8).updatePathCalled = true ∧
    (handleUpdateStep envBase 9 stC8).createLevelCalled = false :=
  ⟨rfl, rfl, rfl, rfl, rfl⟩

lemma processGroups_length (rnd : Nat) :
    ∀ (gs : List GroupNode) (k : Nat), (processGroups rnd k gs).length = gs.length := by
  intro gs
  induction gs with
  | nil => intro k; simp [processGroups]
  | cons g gs ih => intro k; simp [processGroups, ih]

lemma processGroups_getElem_opt (rnd : Nat) :
    ∀ (gs : List GroupNode) (k i : Nat),
      (processGroups rnd k gs)[i]?
        = (gs[i]?).map (fun g => if k + i = rnd then animateItems g else disableRec g) := by
  intro gs
  induction gs with
  | nil => intro k i; simp [processGroups]
  | cons g gs ih =>
    intro k i
    cases i with
    | zero => simp [processGroups]
    | succ j =>
      have harith : k + 1 + j = k + (j + 1) := by omega
      simp [processGroups, ih (k + 1) j, harith]

lemma processGroups_get (rnd : Nat) (gs : List GroupNode) (i : Nat)
    (hi : i < gs.length) (hi' : i < (processGroups rnd 0 gs).length) :
    (processGroups rnd 0 gs).get ⟨i, hi'⟩
      = (if i = rnd then animateItems (gs.get ⟨i, hi⟩) else disableRec (gs.get ⟨i, hi⟩)) := by
  have h1 := processGroups_getElem_opt rnd gs 0 i
  rw [List.getElem?_eq_getElem hi, List.getElem?_eq_getElem hi'] at h1
  simp only [Option.map_some'] at h1
  have h2 := Option.some.inj h1
  simpa [List.get_eq_getElem, Nat.zero_add] using h2

/-- Claim C10: after the group-selection loop runs on a block's `Groups`
children, exactly the group at the drawn index is still enabled (all groups
start enabled) and every other sibling group is recursively disabled together
with its items; items of the chosen group end up with an animation controller
exactly when they are flagged animated, while items of the other groups never
gain one; and the drawn index `Random(numChildren)` always lies within the
group count when there is at least one group. -/
theorem c10_group_selection (groups : List GroupNode) (rnd : Nat)
    (h1 : ∀ g ∈ groups, g.enabled = true)
    (h2 : ∀ g ∈ groups, ∀ it ∈ g.items, it.hasController = false)
    (h3 : rnd < groups.length) :
    (processGroups rnd 0 groups).length = groups.length ∧
    (∀ i, ∀ hi : i < (processGroups rnd 0 groups).length,
      ((processGroups rnd 0 groups).get ⟨i, hi⟩).enabled = decide (i = rnd)) ∧
    (∀ i, ∀ hi : i < (processGroups rnd 0 groups).length, i ≠ rnd →
      ∀ it ∈ ((processGroups rnd 0 groups).get ⟨i, hi⟩).items,
        it.enabled = false ∧ it.hasController = false) ∧
    (∀ hr : rnd < (processGroups rnd 0 groups).length,
      ∀ it ∈ ((processGroups rnd 0 groups).get ⟨rnd, hr⟩).items,
        it.hasController = it.isAnimated) ∧
    (∀ v : Nat, 0 < groups.length → random v groups.length < groups.length) := by
  refine ⟨processGroups_length rnd groups 0, ?_, ?_, ?_, ?_⟩
  · intro i hi
    have hig : i < groups.length := by rwa [processGroups_length] at hi
    rw [processGroups_get rnd groups i hig hi]
    by_cases hir : i = rnd
    · rw [if_pos hir]
      have hen := h1 (groups.get ⟨i, hig⟩) (groups.get_mem _ _)
      rw [List.get_eq_getElem] at hen
      subst hir
      simp [animateItems, hen]
    · rw [if_neg hir]
      simp [disableRec, hir]
  · intro i hi hir it hit
    have hig : i < groups.length := by rwa [processGroups_length] at hi
    rw [processGroups_get rnd groups i hig hi, if_neg hir] at hit
    simp only [disableRec, List.mem_map] at hit
    obtain ⟨it0, hit0, rfl⟩ := hit
    exact ⟨rfl, h2 (groups.get ⟨i, hig⟩) (groups.get_mem _ _) it0 hit0⟩
  · intro hr it hit
    have hig : rnd < groups.length := h3
    rw [processGroups_get rnd groups rnd hig hr, if_pos rfl] at hit
    simp only [animateItems, List.mem_map] at hit
    obtain ⟨it0, hit0, rfl⟩ := hit
    cases hanim : it0.isAnimated
    · simp [hanim, h2 (groups.get ⟨rnd, hig⟩) (groups.get_mem _ _) it0 hit0]
    · simp [hanim]
  · intro v hv
    rw [random, if_neg (by omega)]
    exact Nat.mod_lt _ hv

/-- Witness for C10 at a concrete input: two initially enabled groups, drawn
index 1; group 0 ends disabled with its items disabled and controller-free,
group 1 stays enabled and its animated item gains a controller. -/
theorem c10_witness :
    (processGroups 1 0 groupsTwo).length = 2 ∧
    ((processGroups 1 0 groupsTwo).get ⟨0, by decide⟩).enabled = decide ((0 : Nat) = 1) ∧
    ((processGroups 1 0 groupsTwo).get ⟨1, by decide⟩).enabled = decide ((1 : Nat) = 1) ∧
    ((⟨true, false, false⟩ : ItemNode).enabled = false ∧
      (⟨true, false, false⟩ : ItemNode).hasController = false) ∧
    (⟨true, true, true⟩ : ItemNode).hasController = (⟨true, true, true⟩ : ItemNode).isAnimated ∧
    random 0 groupsTwo.length < groupsTwo.length := by
  obtain ⟨hl, hen, hdis, hcho, hrnd⟩ :=
    c10_group_selection groupsTwo 1 (by decide) (by decide) (by decide)
  exact ⟨hl, hen 0 (by decide), hen 1 (by decide),
    hdis 0 (by decide) (by decide) ⟨true, false, false⟩ (by decide),
    hcho (by decide) ⟨true, true, true⟩ (by decide), hrnd 0 (by decide)⟩

lemma levelLoop_cnt_zero (env : Env) (fuel maxRec numBlocks rngIdx : Nat)
    (blocks : List BlockData) (pos : Vec3) (rot : Rot) :
    (levelLoop env fuel 0 maxRec numBlocks rngIdx blocks pos rot).trace = [] := by
  cases fuel <;> simp [levelLoop]

lemma levelLoop_step_assert (env : Env) (fuel cnt maxRec numBlocks rngIdx : Nat)
    (blocks : List BlockData) (pos : Vec3) (rot : Rot) (hc : cnt ≠ 0)
    (hF : (attempt env numBlocks maxRec rngIdx).assertFailed = true) :
    levelLoop env (fuel + 1) cnt maxRec numBlocks rngIdx blocks pos rot =
      ⟨blocks, numBlocks, rngIdx + 1, pos, rot,
        [⟨maxRec, (attempt env numBlocks maxRec rngIdx).outs,
          (attempt env numBlocks maxRec rngIdx).accepted,
          (attempt env numBlocks maxRec rngIdx).assertFailed⟩], true, false⟩ := by
  simp only [levelLoop]
  rw [if_neg hc, if_pos hF]

lemma levelLoop_step_reject (env : Env) (fuel cnt maxRec numBlocks rngIdx : Nat)
    (blocks : List BlockData) (pos : Vec3) (rot : Rot) (hc : cnt ≠ 0)
    (hF : ¬((attempt env numBlocks maxRec rngIdx).assertFailed = true))
    (hR : (attempt env numBlocks maxRec rngIdx).accepted = false) :
    levelLoop env (fuel + 1) cnt maxRec numBlocks rngIdx blocks pos rot =
      { levelLoop env fuel cnt (attempt env numBlocks maxRec rngIdx).maxRecursive
          numBlocks (rngIdx + 1) blocks pos rot with
        trace := ⟨maxRec, (attempt env numBlocks maxRec rngIdx).outs,
            (attempt env numBlocks maxRec rngIdx).accepted,
            (attempt env numBlocks maxRec rngIdx).assertFailed⟩ ::
          (levelLoop env fuel cnt (attempt env numBlocks maxRec rngIdx).maxRecursive
            numBlocks (rngIdx + 1) blocks pos rot).trace } := by
  simp only [levelLoop]
  rw [if_neg hc, if_neg hF, if_pos hR]

lemma levelLoop_step_accept (env : Env) (fuel cnt maxRec numBlocks rngIdx : Nat)
    (blocks : List BlockData) (pos : Vec3) (rot : Rot) (hc : cnt ≠ 0)
    (hF : ¬((attempt env numBlocks maxRec rngIdx).assertFailed = true))
    (hR : ¬((attempt env numBlocks maxRec rngIdx).accepted = false)) :
    levelLoop env (fuel + 1) cnt maxRec numBlocks rngIdx blocks pos rot =
      { levelLoop env fuel
          (if 2 ≤ (attempt env numBlocks maxRec rngIdx).outs then 0 else cnt - 1)
          (attempt env numBlocks maxRec rngIdx).maxRecursive
          (numBlocks + 1) (rngIdx + 2)
          (blocks ++ [{ (attempt env numBlocks maxRec rngIdx).block with
            groups := processGroups
              (random (env.rng (rngIdx + 1))
                (attempt env numBlocks maxRec rngIdx).block.groups.length)
              0 (attempt env numBlocks maxRec rngIdx).block.groups }])
          (attempt env numBlocks maxRec rngIdx).outSocket.pos
          (attempt env numBlocks maxRec rngIdx).outSocket.rot with
        trace := ⟨maxRec, (attempt env numBlocks maxRec rngIdx).outs,
            (attempt env numBlocks maxRec rngIdx).accepted,
            (attempt env numBlocks maxRec rngIdx).assertFailed⟩ ::
          (levelLoop env fuel
            (if 2 ≤ (attempt env numBlocks maxRec rngIdx).outs then 0 else cnt - 1)
            (attempt env numBlocks maxRec rngIdx).maxRecursive
            (numBlocks + 1) (rngIdx + 2)
            (blocks ++ [{ (attempt env numBlocks maxRec rngIdx).block with
              groups := processGroups
                (random (env.rng (rngIdx + 1))
                  (attempt env numBlocks maxRec rngIdx).block.groups.length)
                0 (attempt env numBlocks maxRec rngIdx).block.groups }])
            (attempt env numBlocks maxRec rngIdx).outSocket.pos
            (attempt env numBlocks maxRec rngIdx).outSocket.rot).trace } := by
  simp only [levelLoop]
  rw [if_neg hc, if_neg hF, if_neg hR]

lemma levelLoop_trace_nonempty (env : Env) (fuel cnt maxRec numBlocks rngIdx : Nat)
    (blocks : List BlockData) (pos : Vec3) (rot : Rot) (hf : fuel ≠ 0) (hc : cnt ≠ 0) :
    (levelLoop env fuel cnt maxRec numBlocks rngIdx blocks pos rot).trace ≠ [] := by
  rcases fuel with _ | n
  · exact absurd rfl hf
  · by_cases hF : (attempt env numBlocks maxRec rngIdx).assertFailed = true
    · rw [levelLoop_step_assert env n cnt maxRec numBlocks rngIdx blocks pos rot hc hF]
      simp
    · by_cases hR : (attempt env numBlocks maxRec rngIdx).accepted = false
      · rw [levelLoop_step_reject env n cnt maxRec numBlocks rngIdx blocks pos rot hc hF hR]
        simp
      · rw [levelLoop_step_accept env n cnt maxRec numBlocks rngIdx blocks pos rot hc hF hR]
        simp

lemma levelLoop_retryChain (env : Env) :
    ∀ (fuel cnt maxRec numBlocks rngIdx : Nat) (blocks : List BlockData)
      (pos : Vec3) (rot : Rot), maxRec ≤ 30 →
      retryChain (30 - maxRec)
        (levelLoop env fuel cnt maxRec numBlocks rngIdx blocks pos rot).trace := by
  intro fuel
  induction fuel with
  | zero =>
    intro cnt maxRec numBlocks rngIdx blocks pos rot _
    simp [levelLoop, retryChain]
  | succ n ih =>
    intro cnt maxRec numBlocks rngIdx blocks pos rot hm
    by_cases hc : cnt = 0
    · simp [levelLoop, hc, retryChain]
    · obtain ⟨hAcc, hAss, hRem, hMax, hPr, hPN⟩ := attempt_probe_spec env numBlocks maxRec rngIdx
      by_cases hh : env.raycastHit (mkProbeRay (attempt env numBlocks maxRec rngIdx).outSocket) = true
      · have hAccF : (attempt env numBlocks maxRec rngIdx).accepted = false := by
          rw [hAcc, hh]; rfl
        by_cases hm0 : maxRec = 0
        · have hF : (attempt env numBlocks maxRec rngIdx).assertFailed = true := by
            rw [hAss, hh, hm0]; rfl
          rw [levelLoop_step_assert env n cnt maxRec numBlocks rngIdx blocks pos rot hc hF]
          simp only [retryChain]
          refine ⟨by omega, fun _ => ⟨hm0, hAccF, trivial⟩, trivial⟩
        · have hF : ¬((attempt env numBlocks maxRec rngIdx).assertFailed = true) := by
            rw [hAss, hh]
            simp [hm0]
          rw [levelLoop_step_reject env n cnt maxRec numBlocks rngIdx blocks pos rot hc hF hAccF]
          simp only [retryChain]
          refine ⟨by omega, ?_, ?_⟩
          · intro hcontra
            rw [Bool.not_eq_true] at hF
            rw [hF] at hcontra
            exact absurd hcontra (by decide)
          · rw [hAccF]
            simp only [Bool.false_eq_true, if_neg (by decide : ¬(false = true))]
            rw [hMax, if_pos hh]
            have harith : 30 - maxRec + 1 = 30 - (maxRec - 1) := by omega
            rw [harith]
            exact ih cnt (maxRec - 1) numBlocks (rngIdx + 1) blocks pos rot (by omega)
      · have hh' : env.raycastHit (mkProbeRay (attempt env numBlocks maxRec rngIdx).outSocket) = false := by
          rw [Bool.not_eq_true] at hh; exact hh
        have hAccT : (attempt env numBlocks maxRec rngIdx).accepted = true := by
          rw [hAcc, hh']; rfl
        have hF : ¬((attempt env numBlocks maxRec rngIdx).assertFailed = true) := by
          rw [hAss, hh']
          simp
        have hR : ¬((attempt env numBlocks maxRec rngIdx).accepted = false) := by
          rw [hAccT]; simp
        rw [levelLoop_step_accept env n cnt maxRec numBlocks rngIdx blocks pos rot hc hF hR]
        simp only [retryChain]
        refine ⟨by omega, ?_, ?_⟩
        · intro hcontra
          rw [Bool.not_eq_true] at hF
          rw [hF] at hcontra
          exact absurd hcontra (by decide)
        · rw [hAccT]
          simp only [if_pos rfl]
          rw [hMax, if_neg hh]
          have h30 : (0 : Nat) = 30 - 30 := by omega
          rw [h30]
          exact ih _ 30 _ _ _ _ _ (by omega)

lemma levelLoop_fork_last (env : Env) :
    ∀ (fuel cnt maxRec numBlocks rngIdx : Nat) (blocks : List BlockData)
      (pos : Vec3) (rot : Rot),
      ∀ r ∈ (levelLoop env fuel cnt maxRec numBlocks rngIdx blocks pos rot).trace.dropLast,
        (r.accepted && decide (2 ≤ r.outs)) = false := by
  intro fuel
  induction fuel with
  | zero =>
    intro cnt maxRec numBlocks rngIdx blocks pos rot r hr
    simp [levelLoop] at hr
  | succ n ih =>
    intro cnt maxRec numBlocks rngIdx blocks pos rot r hr
    by_cases hc : cnt = 0
    · simp [levelLoop, hc] at hr
    · by_cases hF : (attempt env numBlocks maxRec rngIdx).assertFailed = true
      · rw [levelLoop_step_assert env n cnt maxRec numBlocks rngIdx blocks pos rot hc hF] at hr
        simp at hr
      · by_cases hR : (attempt env numBlocks maxRec rngIdx).accepted = false
        · rw [levelLoop_step_reject env n cnt maxRec numBlocks rngIdx blocks pos rot hc hF hR] at hr
          rcases ht : (levelLoop env n cnt (attempt env numBlocks maxRec rngIdx).maxRecursive
              numBlocks (rngIdx + 1) blocks pos rot).trace with _ | ⟨x, xs⟩
          · rw [ht] at hr
            simp at hr
          · rw [ht, List.dropLast_cons₂] at hr
            rcases List.mem_cons.mp hr with hEq | hMem
            · rw [hEq]
              simp [hR]
            · have := ih cnt (attempt env numBlocks maxRec rngIdx).maxRecursive
                numBlocks (rngIdx + 1) blocks pos rot r
              rw [ht] at this
              exact this hMem
        · by_cases h2 : 2 ≤ (attempt env numBlocks maxRec rngIdx).outs
          · rw [levelLoop_step_accept env n cnt maxRec numBlocks rngIdx blocks pos rot hc hF hR] at hr
            rw [if_pos h2] at hr
            rw [levelLoop_cnt_zero] at hr
            simp at hr
          · rw [levelLoop_step_accept env n cnt maxRec numBlocks rngIdx blocks pos rot hc hF hR] at hr
            rw [if_neg h2] at hr
            rcases ht : (levelLoop env n (cnt - 1) (attempt env numBlocks maxRec rngIdx).maxRecursive
                (numBlocks + 1) (rngIdx + 2)
                (blocks ++ [{ (attempt env numBlocks maxRec rngIdx).block with
                  groups := processGroups
                    (random (env.rng (rngIdx + 1))
                      (attempt env numBlocks maxRec rngIdx).block.groups.length)
                    0 (attempt env numBlocks maxRec rngIdx).block.groups }])
                (attempt env numBlocks maxRec rngIdx).outSocket.pos
                (attempt env numBlocks maxRec rngIdx).outSocket.rot).trace with _ | ⟨x, xs⟩
            · rw [ht] at hr
              simp at hr
            · rw [ht, List.dropLast_cons₂] at hr
              rcases List.mem_cons.mp hr with hEq | hMem
              · rw [hEq]
                simp [h2]
              · have := ih (cnt - 1) (attempt env numBlocks maxRec rngIdx).maxRecursive
                  (numBlocks + 1) (rngIdx + 2)
                  (blocks ++ [{ (attempt env numBlocks maxRec rngIdx).block with
                    groups := processGroups
                      (random (env.rng (rngIdx + 1))
                        (attempt env numBlocks maxRec rngIdx).block.groups.length)
                      0 (attempt env numBlocks maxRec rngIdx).block.groups }])
                  (attempt env numBlocks maxRec rngIdx).outSocket.pos
                  (attempt env numBlocks maxRec rngIdx).outSocket.rot r
                rw [ht] at this
                exact this hMem

/-- Claim C3: in any run of `CreateLevel`'s placement loop, an accepted
segment with two or more exits is always the last attempt of the batch (no
record of the attempt trace other than the final one is an accepted fork —
the loop stops immediately, whatever `cnt` remained); and an accepted segment
with at most one exit does not end the batch early: with at least two
placements left and fuel to spare, another attempt always follows it. -/
theorem c3_fork_ends_batch (env : Env) (fuel cnt maxRec numBlocks rngIdx : Nat)
    (blocks : List BlockData) (pos : Vec3) (rot : Rot) :
    (∀ r ∈ (levelLoop env fuel cnt maxRec numBlocks rngIdx blocks pos rot).trace.dropLast,
        (r.accepted && decide (2 ≤ r.outs)) = false) ∧
    (2 ≤ fuel → 2 ≤ cnt → (attempt env numBlocks maxRec rngIdx).accepted = true →
        (attempt env numBlocks maxRec rngIdx).outs ≤ 1 →
        2 ≤ (levelLoop env fuel cnt maxRec numBlocks rngIdx blocks pos rot).trace.length) := by
  refine ⟨levelLoop_fork_last env fuel cnt maxRec numBlocks rngIdx blocks pos rot, ?_⟩
  intro hf hcnt hacc houts
  rcases fuel with _ | n
  · omega
  · have hc : cnt ≠ 0 := by omega
    obtain ⟨hAcc, hAss, hRem, hMax, hPr, hPN⟩ := attempt_probe_spec env numBlocks maxRec rngIdx
    have hh : env.raycastHit (mkProbeRay (attempt env numBlocks maxRec rngIdx).outSocket) = false := by
      cases hhb : env.raycastHit (mkProbeRay (attempt env numBlocks maxRec rngIdx).outSocket)
      · rfl
      · rw [hhb] at hAcc
        rw [hacc] at hAcc
        exact absurd hAcc (by decide)
    have hF : ¬((attempt env numBlocks maxRec rngIdx).assertFailed = true) := by
      rw [hAss, hh]
      simp
    have hR : ¬((attempt env numBlocks maxRec rngIdx).accepted = false) := by
      rw [hacc]; simp
    rw [levelLoop_step_accept env n cnt maxRec numBlocks rngIdx blocks pos rot hc hF hR]
    have h2 : ¬(2 ≤ (attempt env numBlocks maxRec rngIdx).outs) := by omega
    rw [if_neg h2]
    have hne := levelLoop_trace_nonempty env n (cnt - 1)
      (attempt env numBlocks maxRec rngIdx).maxRecursive (numBlocks + 1) (rngIdx + 2)
      (blocks ++ [{ (attempt env numBlocks maxRec rngIdx).block with
        groups := processGroups
          (random (env.rng (rngIdx + 1))
            (attempt env numBlocks maxRec rngIdx).block.groups.length)
          0 (attempt env numBlocks maxRec rngIdx).block.groups }])
      (attempt env numBlocks maxRec rngIdx).outSocket.pos
      (attempt env numBlocks maxRec rngIdx).outSocket.rot (by omega) (by omega)
    have hlen := List.length_pos.mpr hne
    exact Nat.succ_le_succ hlen

/-- Witness for C3 at a concrete input: in the spec's two-block scenario the
run accepts the forced 0-exit start block and then the fork, and stops; the
only non-final trace record is the accepted 0-exit block, and the trace of
the `extend 3` batch has length 2. -/
theorem c3_witness :
    ((⟨30, 0, true, false⟩ : AttemptRecord).accepted
        && decide (2 ≤ (⟨30, 0, true, false⟩ : AttemptRecord).outs)) = false ∧
    2 ≤ (levelLoop envC3 10 3 30 0 0 [] v0 rotId).trace.length := by
  constructor
  · exact (c3_fork_ends_batch envC3 10 3 30 0 0 [] v0 rotId).1
      ⟨30, 0, true, false⟩ (by decide)
  · exact (c3_fork_ends_batch envC3 10 3 30 0 0 [] v0 rotId).2
      (by omega) (by omega) (by decide) (by decide)

lemma createLevel_trace (env : Env) (fuel : Nat) (st : RunnerState) :
    (createLevel env fuel st).trace
      = (levelLoop env fuel 3 30 st.numBlocks st.rngIdx st.blocks
          st.lastOutPos st.lastOutRot).trace := by
  simp only [createLevel]
  split <;> rfl

/-- Claim C6: a clearance-probe hit rejects the attempt (the instantiated
block is removed, not pushed), decrements the retry counter, and retries the
same slot — the loop recurses with the same `cnt`, queue, placed counter and
anchor; a hit with the counter already at zero trips the assertion instead
(and the block is then not removed, the program halts); a probe miss resets
the counter to 30.  `CreateLevel` starts the counter at 30, and along any run
the trace satisfies the `retryChain` invariant from counter 30: each attempt
starts at counter `30 - s` where `s` is the current consecutive-rejection
streak, and an assertion record has counter 0 — so the failure branch is
reachable only on the rejection following 30 consecutive rejections. -/
theorem c6_retry_policy (env : Env) (fuel cnt maxRec numBlocks rngIdx : Nat)
    (blocks : List BlockData) (pos : Vec3) (rot : Rot) (st : RunnerState) :
    ((attempt env numBlocks maxRec rngIdx).accepted
        = !(env.raycastHit (mkProbeRay (attempt env numBlocks maxRec rngIdx).outSocket))) ∧
    ((attempt env numBlocks maxRec rngIdx).removed
        = (env.raycastHit (mkProbeRay (attempt env numBlocks maxRec rngIdx).outSocket)
            && !decide (maxRec = 0))) ∧
    ((attempt env numBlocks maxRec rngIdx).assertFailed
        = (env.raycastHit (mkProbeRay (attempt env numBlocks maxRec rngIdx).outSocket)
            && decide (maxRec = 0))) ∧
    ((attempt env numBlocks maxRec rngIdx).maxRecursive
        = (if env.raycastHit (mkProbeRay (attempt env numBlocks maxRec rngIdx).outSocket) = true
           then maxRec - 1 else 30)) ∧
    (cnt ≠ 0 →
      env.raycastHit (mkProbeRay (attempt env numBlocks maxRec rngIdx).outSocket) = true →
      maxRec ≠ 0 →
      levelLoop env (fuel + 1) cnt maxRec numBlocks rngIdx blocks pos rot
        = { levelLoop env fuel cnt (maxRec - 1) numBlocks (rngIdx + 1) blocks pos rot with
            trace := ⟨maxRec, (attempt env numBlocks maxRec rngIdx).outs, false, false⟩ ::
              (levelLoop env fuel cnt (maxRec - 1) numBlocks (rngIdx + 1)
                blocks pos rot).trace }) ∧
    (maxRec ≤ 30 →
      retryChain (30 - maxRec)
        (levelLoop env fuel cnt maxRec numBlocks rngIdx blocks pos rot).trace) ∧
    retryChain 0 (createLevel env fuel st).trace := by
  obtain ⟨hAcc, hAss, hRem, hMax, hPr, hPN⟩ := attempt_probe_spec env numBlocks maxRec rngIdx
  refine ⟨hAcc, hRem, hAss, hMax, ?_, ?_, ?_⟩
  · intro hc hh hm0
    have hAccF : (attempt env numBlocks maxRec rngIdx).accepted = false := by
      rw [hAcc, hh]; rfl
    have hAssF : (attempt env numBlocks maxRec rngIdx).assertFailed = false := by
      rw [hAss, hh]
      simp [hm0]
    have hF : ¬((attempt env numBlocks maxRec rngIdx).assertFailed = true) := by
      rw [hAssF]; simp
    have hstep := levelLoop_step_reject env fuel cnt maxRec numBlocks rngIdx blocks pos rot
      hc hF hAccF
    rw [hMax, if_pos hh] at hstep
    rw [hAccF, hAssF] at hstep
    exact hstep
  · intro hm
    exact levelLoop_retryChain env fuel cnt maxRec numBlocks rngIdx blocks pos rot hm
  · rw [createLevel_trace]
    have := levelLoop_retryChain env fuel 3 30 st.numBlocks st.rngIdx st.blocks
      st.lastOutPos st.lastOutRot (by omega)
    simpa using this

/-- Witness for C6 at concrete inputs, with an always-hit raycast oracle:
the attempt with counter 5 is rejected, removed and decremented; with counter
0 it trips the assertion; the loop retries the same slot with counter 4; and
the chain invariant holds on concrete runs. -/
theorem c6_witness :
    (attempt envHit 1 5 0).accepted = false ∧
    (attempt envHit 1 5 0).removed = true ∧
    (attempt envHit 1 0 0).assertFailed = true ∧
    (attempt envHit 1 5 0).maxRecursive = 4 ∧
    (levelLoop envHit 4 2 5 1 0 [] v0 rotId
      = { levelLoop envHit 3 2 4 1 1 [] v0 rotId with
          trace := ⟨5, (attempt envHit 1 5 0).outs, false, false⟩ ::
            (levelLoop envHit 3 2 4 1 1 [] v0 rotId).trace }) ∧
    retryChain 25 (levelLoop envHit 7 1 5 1 0 [] v0 rotId).trace ∧
    retryChain 0 (createLevel envHit 2 stEmpty).trace := by
  refine ⟨?_, ?_, ?_, ?_, ?_, ?_, ?_⟩
  · exact (c6_retry_policy envHit 3 2 5 1 0 [] v0 rotId stEmpty).1
  · exact (c6_retry_policy envHit 3 2 5 1 0 [] v0 rotId stEmpty).2.1
  · exact (c6_retry_policy envHit 3 2 0 1 0 [] v0 rotId stEmpty).2.2.1
  · exact (c6_retry_policy envHit 3 2 5 1 0 [] v0 rotId stEmpty).2.2.2.1
  · exact (c6_retry_policy envHit 3 2 5 1 0 [] v0 rotId stEmpty).2.2.2.2.1
      (by omega) rfl (by omega)
  · exact (c6_retry_policy envHit 7 1 5 1 0 [] v0 rotId stEmpty).2.2.2.2.2.1 (by omega)
  · exact (c6_retry_policy envHit 2 1 5 1 0 [] v0 rotId stEmpty).2.2.2.2.2.2
